import Mathlib

/-! Admission policy and rule translators of KubeSphere.

A shallow embedding of

* `pkg/models/admission/policies/policies.go` (`Policy`, `PolicyFromTemplate`,
  `PolicyManager.GetPolicy`, `PolicyDetail`),
* `pkg/models/admission/rules/rules.go` (`Rule`),
* `pkg/kapis/admission/v1alpha1/handler.go` (the REST handlers),

followed by the properties established about them.

Conventions of the embedding:

* A Go `string` is an immutable sequence of bytes (`GoString`); the conversions
  `[]byte(s)` and `string(b)` copy the bytes.
* A Go pointer argument (`*PolicyTemplate`, `*PostPolicy`, `*PostRule`) is
  modelled by the value it points to: the translators are studied on non-nil
  arguments.
* A Go slice is a list; the nil slice and the empty slice are both `[]`.
* A Go call can return normally, return an error, or abort with a run-time
  abort (`Outcome`).
-/

/-! ## Go strings -/

/-- Go `string`: an immutable sequence of bytes. -/
structure GoString where
  bytes : List UInt8
deriving DecidableEq

namespace GoString

/-- The Go string literal with the given text (UTF-8 encoded, as Go source is). -/
def lit (s : String) : GoString := ⟨s.toUTF8.data.toList⟩

/-- The empty string `""`. -/
def empty : GoString := ⟨[]⟩

/-- Go `[]byte(s)`: a fresh byte slice holding the bytes of `s`. -/
def toBytes (s : GoString) : List UInt8 := s.bytes

/-- Go `string(b)`: the string holding the bytes of `b`. -/
def ofBytes (b : List UInt8) : GoString := ⟨b⟩

end GoString

namespace strings

/-- The ASCII branch of `unicode.ToLower`, on one byte:
`if 'A' <= c && c <= 'Z' { c += 'a' - 'A' }`. -/
def lowerByte (c : UInt8) : UInt8 :=
  if 65 ≤ c.toNat ∧ c.toNat ≤ 90 then UInt8.ofNat (c.toNat + 32) else c

/-- The test `c < utf8.RuneSelf` for every byte of `s`. -/
def isASCII (s : GoString) : Bool := s.bytes.all (fun c => decide (c.toNat < 128))

/-- Go `strings.ToLower`. An ASCII-only string is lowered byte by byte (the
fast path of the library function, which returns `s` itself when it has no upper
case letter: the byte-wise map leaves such a string unchanged). Any other
string goes through `strings.Map(unicode.ToLower, s)`; the Unicode case tables
are not part of this repository, so that path is the parameter `mapLower`. -/
def ToLower (mapLower : GoString → GoString) (s : GoString) : GoString :=
  if isASCII s then ⟨s.bytes.map lowerByte⟩ else mapLower s

end strings

/-! ## Outcomes of Go calls -/

/-- Go `error` values met in the admission packages. The six sentinel errors
are the package-level variables of `pkg/api/admission/v1alpha1` that the
handlers compare against with `==`; `apiNotFound` is the not-found error a
lister builds for a resource and a name; `other` is any other error. -/
inductive GoError where
  | ErrPolicyTemplateNotFound
  | ErrTemplateOfProviderNotSupport
  | ErrPolicyNotFound
  | ErrPolicyAlreadyExists
  | ErrRuleNotFound
  | ErrRuleAlreadyExists
  | apiNotFound (resource : GoString) (name : GoString)
  | other (msg : String)
deriving DecidableEq

/-- How a Go call ends: a normal return with a value (and a nil error), a
return with a non-nil error, or a run-time abort carrying its message. -/
inductive Outcome (α : Type) where
  | ok (a : α)
  | error (e : GoError)
  | abort (msg : String)
deriving DecidableEq

/-! ## Resource types

The declarations of these types live in `kubesphere.io/api/admission/v1alpha1`,
`pkg/api/admission/v1alpha1` and the Kubernetes API machinery; the fields below
are the ones the translators read or write. -/

namespace metav1

/-- The `metav1.TypeMeta` of a resource. -/
structure TypeMeta where
  Kind : GoString
  APIVersion : GoString
deriving DecidableEq

/-- The `metav1.ObjectMeta` of a resource; `Name` is the storage name. The
translators set no other field. -/
structure ObjectMeta where
  Name : GoString
deriving DecidableEq

end metav1

namespace runtime

/-- The `runtime.RawExtension`: a raw byte payload. -/
structure RawExtension where
  Raw : List UInt8
deriving DecidableEq

end runtime

namespace admission

/-- An OpenAPI v3 schema document. The translators only copy it. -/
structure JSONSchemaProps where
  document : GoString
deriving DecidableEq

/-- The validation schema of a parameter block, with its legacy variant. -/
structure Validation where
  OpenAPIV3Schema : Option JSONSchemaProps
  LegacySchema : Bool
deriving DecidableEq

/-- The parameter block; `Validation` is a pointer in Go. -/
structure Parameters where
  Validation : Option Validation
deriving DecidableEq

/-- The names block. -/
structure Names where
  Name : GoString
deriving DecidableEq

/-- Lifecycle state of a policy: a Go string type. -/
abbrev PolicyState := GoString

/-- Lifecycle state of a rule: a Go string type. -/
abbrev RuleState := GoString

/-- Modelled from the spec: the constant `admission.PolicyInactive`, whose
declaration is not among the sources; the spec names the state `Inactive`. -/
def PolicyInactive : PolicyState := GoString.lit "Inactive"

/-- Modelled from the spec: the constant `admission.PolicyActive`, whose
declaration is not among the sources; the spec names the state `Active`. -/
def PolicyActive : PolicyState := GoString.lit "Active"

/-- Modelled from the spec: the constant `admission.RuleInactive`, whose
declaration is not among the sources; the spec names the state `Inactive`. -/
def RuleInactive : RuleState := GoString.lit "Inactive"

/-- Modelled from the spec: the constant `admission.RuleActive`, whose
declaration is not among the sources; the spec names the state `Active`. -/
def RuleActive : RuleState := GoString.lit "Active"

/-- A content target of a policy template: how the template behaves for one
provider. -/
structure PolicyTemplateContentTarget where
  Target : GoString
  Expression : GoString
  Import : List GoString
  Provider : GoString
deriving DecidableEq

/-- The names block and parameter block of a template. -/
structure PolicyTemplateContentSpec where
  Names : Names
  Parameters : Parameters
deriving DecidableEq

/-- The content of a policy template. -/
structure PolicyTemplateContent where
  Spec : PolicyTemplateContentSpec
  Targets : List PolicyTemplateContentTarget
deriving DecidableEq

/-- The spec of a policy template. -/
structure PolicyTemplateSpec where
  Name : GoString
  Description : GoString
  Content : PolicyTemplateContent
deriving DecidableEq

/-- A policy template. `template.Name` in Go is the promoted field
`ObjectMeta.Name`. -/
structure PolicyTemplate where
  ObjectMeta : metav1.ObjectMeta
  Spec : PolicyTemplateSpec
deriving DecidableEq

/-- A content target of a policy. -/
structure PolicyContentTarget where
  Target : GoString
  Expression : GoString
  Import : List GoString
deriving DecidableEq

/-- The names block and parameter block of a policy. -/
structure PolicyContentSpec where
  Names : Names
  Parameters : Parameters
deriving DecidableEq

/-- The content of a policy. -/
structure PolicyContent where
  Spec : PolicyContentSpec
  Targets : List PolicyContentTarget
deriving DecidableEq

/-- The spec of a policy. -/
structure PolicySpec where
  Name : GoString
  PolicyTemplate : GoString
  Description : GoString
  Provider : GoString
  Content : PolicyContent
deriving DecidableEq

/-- The status of a policy. -/
structure PolicyStatus where
  State : PolicyState
deriving DecidableEq

/-- A policy resource. -/
structure Policy where
  TypeMeta : metav1.TypeMeta
  ObjectMeta : metav1.ObjectMeta
  Spec : PolicySpec
  Status : PolicyStatus
deriving DecidableEq

/-- The match criteria of a rule. -/
structure Match where
  Namespaces : List GoString
deriving DecidableEq

/-- The spec of a rule. -/
structure RuleSpec where
  Name : GoString
  Policy : GoString
  Provider : GoString
  Description : GoString
  Match : Match
  Parameters : runtime.RawExtension
deriving DecidableEq

/-- The status of a rule. -/
structure RuleStatus where
  State : RuleState
deriving DecidableEq

/-- A rule resource. -/
structure Rule where
  TypeMeta : metav1.TypeMeta
  ObjectMeta : metav1.ObjectMeta
  Spec : RuleSpec
  Status : RuleStatus
deriving DecidableEq

end admission

namespace v1alpha1

/-- The validation schema carried by a request. -/
structure PostValidation where
  OpenAPIV3Schema : Option admission.JSONSchemaProps
  LegacySchema : Bool
deriving DecidableEq

/-- The parameter block of a request. -/
structure PostParameters where
  Validation : PostValidation
deriving DecidableEq

/-- A target of a policy request. -/
structure PolicyTarget where
  Target : GoString
  Expression : GoString
  Import : List GoString
deriving DecidableEq

/-- The body of a create-policy or update-policy request. -/
structure PostPolicy where
  Name : GoString
  PolicyTemplate : GoString
  Description : GoString
  Provider : GoString
  Targets : List PolicyTarget
  Parameters : PostParameters
deriving DecidableEq

/-- The body of a create-rule or update-rule request. -/
structure PostRule where
  Name : GoString
  Policy : GoString
  Provider : GoString
  Description : GoString
  Parameters : GoString
deriving DecidableEq

/-- Modelled from the spec: the wire form of a policy returned to API callers,
whose declaration is not among the sources; it includes the resolved template
name, the provider, the current state and the target list. -/
structure PolicyDetail where
  Name : GoString
  PolicyTemplate : GoString
  Provider : GoString
  State : admission.PolicyState
  Targets : List PolicyTarget
deriving DecidableEq

end v1alpha1

/-! ## Package `policies` -/

namespace policies

/-- The policy manager. Of its fields only the informer cache of policies is
read by `GetPolicy`; it is the list of cached policies. -/
structure PolicyManager where
  ksInformers : List admission.Policy

/-- Modelled from the spec: the generated lister behind
`ksInformers.Admission().V1alpha1().Policies().Lister().Get`, whose source is
not among the files: it reads from the cached store and answers with the
policy of that name, or with a not-found error when the store holds none. -/
def ListerGet (cache : List admission.Policy) (name : GoString) :
    Outcome admission.Policy :=
  match cache.find? (fun policy => decide (policy.ObjectMeta.Name = name)) with
  | some policy => Outcome.ok policy
  | none => Outcome.error (GoError.apiNotFound (GoString.lit "policy") name)

/-- Go `PolicyDetail`: the body is `panic("implement me")`. -/
def PolicyDetail (_policy : admission.Policy) : Outcome v1alpha1.PolicyDetail :=
  Outcome.abort "implement me"

/-- Go `PolicyManager.GetPolicy`: ask the lister; on an error return it, else
return `PolicyDetail(policy)`. -/
def GetPolicy (p : PolicyManager) (policyName : GoString) :
    Outcome v1alpha1.PolicyDetail :=
  match ListerGet p.ksInformers policyName with
  | Outcome.error err => Outcome.error err
  | Outcome.abort msg => Outcome.abort msg
  | Outcome.ok policy => PolicyDetail policy

/-- Go `Policy`: build a policy resource from a request body. -/
def Policy (mapLower : GoString → GoString) (postPolicy : v1alpha1.PostPolicy)
    (state : admission.PolicyState) : admission.Policy :=
  let state := if state = GoString.empty then admission.PolicyInactive else state
  let params := postPolicy.Parameters
  let targets := postPolicy.Targets
  let policyTargets : List admission.PolicyContentTarget :=
    targets.foldl
      (fun policyTargets target =>
        policyTargets ++
          [{ Target := target.Target
             Expression := target.Expression
             Import := target.Import }])
      []
  { TypeMeta := { Kind := GoString.empty, APIVersion := GoString.empty }
    ObjectMeta := { Name := strings.ToLower mapLower postPolicy.Name }
    Spec :=
      { Name := postPolicy.Name
        PolicyTemplate := postPolicy.PolicyTemplate
        Description := postPolicy.Description
        Provider := postPolicy.Provider
        Content :=
          { Spec :=
              { Names := { Name := postPolicy.Name }
                Parameters :=
                  { Validation := some
                      { OpenAPIV3Schema := params.Validation.OpenAPIV3Schema
                        LegacySchema := params.Validation.LegacySchema } } }
            Targets := policyTargets } }
    Status := { State := state } }

/-- One iteration of the loop of `PolicyFromTemplate` over the template's
targets: a target of another provider is skipped (`continue`), a target of the
requested provider is appended with its `Target`, `Expression` and `Import`. -/
def PolicyFromTemplateStep (provider : GoString)
    (policyTargets : List admission.PolicyContentTarget)
    (target : admission.PolicyTemplateContentTarget) :
    List admission.PolicyContentTarget :=
  if target.Provider ≠ provider then policyTargets
  else
    policyTargets ++
      [{ Target := target.Target
         Expression := target.Expression
         Import := target.Import }]

/-- Go `PolicyFromTemplate`: build a policy resource from a template. -/
def PolicyFromTemplate (mapLower : GoString → GoString)
    (template : admission.PolicyTemplate) (name : GoString) (provider : GoString)
    (state : admission.PolicyState) : admission.Policy :=
  let state := if state = GoString.empty then admission.PolicyInactive else state
  let name := if name = GoString.empty then template.ObjectMeta.Name else name
  let templateContent := template.Spec.Content
  let targets := templateContent.Targets
  let policyTargets : List admission.PolicyContentTarget :=
    targets.foldl (PolicyFromTemplateStep provider) []
  { TypeMeta := { Kind := GoString.empty, APIVersion := GoString.empty }
    ObjectMeta := { Name := strings.ToLower mapLower name }
    Spec :=
      { Name := name
        PolicyTemplate := template.Spec.Name
        Description := template.Spec.Description
        Provider := provider
        Content :=
          { Spec :=
              { Names := templateContent.Spec.Names
                Parameters := templateContent.Spec.Parameters }
            Targets := policyTargets } }
    Status := { State := state } }

/-- The outcome of a call of `PolicyFromTemplate`. The Go function has the one
result `*admission.Policy` and no error result, and its body has no abort
site, so a call on a template always returns normally with the policy. -/
def PolicyFromTemplateCall (mapLower : GoString → GoString)
    (template : admission.PolicyTemplate) (name : GoString) (provider : GoString)
    (state : admission.PolicyState) : Outcome admission.Policy :=
  Outcome.ok (PolicyFromTemplate mapLower template name provider state)

end policies

/-! ## Package `rules` -/

namespace rules

/-- Go `Rule`: build a rule resource from a request body and the namespaces
passed as variadic arguments. -/
def Rule (mapLower : GoString → GoString) (postRule : v1alpha1.PostRule)
    (state : admission.RuleState) (namespaces : List GoString) : admission.Rule :=
  let state := if state = GoString.empty then admission.RuleInactive else state
  { TypeMeta := { Kind := GoString.empty, APIVersion := GoString.empty }
    ObjectMeta := { Name := strings.ToLower mapLower postRule.Name }
    Spec :=
      { Name := postRule.Name
        Policy := postRule.Policy
        Provider := postRule.Provider
        Description := postRule.Description
        Match := { Namespaces := namespaces }
        Parameters := { Raw := GoString.toBytes postRule.Parameters } }
    Status := { State := state } }

end rules

/-! ## Package `kapis/admission/v1alpha1`: the REST handlers

A `restful.Response` is modelled by the sequence of responses written to it so
far, oldest first. The operator behind a handler is an interface; the error it
returns (`none` for a nil error) is an argument of the handler's model, as are
the errors of `req.ReadEntity` and of `Validate`. -/

namespace ksapi

/-- One response written by a handler. -/
inductive Written where
  | notFound (err : GoError)
  | badRequest (err : GoError)
  | internalError (err : GoError)
  | entity
deriving DecidableEq

/-- The state of a `restful.Response`: what has been written to it. -/
abbrev Response := List Written

/-- Modelled from the spec: `ksapi.HandleNotFound`, whose source is not among
the files: maps the error to the transport status NotFound and writes it. -/
def HandleNotFound (resp : Response) (err : GoError) : Response :=
  resp ++ [Written.notFound err]

/-- Modelled from the spec: `ksapi.HandleBadRequest`, whose source is not among
the files: maps the error to the transport status BadRequest and writes it. -/
def HandleBadRequest (resp : Response) (err : GoError) : Response :=
  resp ++ [Written.badRequest err]

/-- Modelled from the spec: `ksapi.HandleInternalError`, whose source is not
among the files: maps the error to the transport status InternalServerError and
writes it. -/
def HandleInternalError (resp : Response) (err : GoError) : Response :=
  resp ++ [Written.internalError err]

/-- The call `resp.WriteEntity(v)` of go-restful: writes the entity. -/
def WriteEntity (resp : Response) : Response :=
  resp ++ [Written.entity]

/-- The number of error responses among the responses written. -/
def errorCount (resp : Response) : Nat :=
  (resp.filter (fun w => decide (w ≠ Written.entity))).length

end ksapi

namespace kapis

open ksapi

/-- Go `handleListPolicyTemplates`. -/
def handleListPolicyTemplates (opErr : Option GoError) (resp : Response) : Response :=
  match opErr with
  | some err => HandleInternalError resp err
  | none => WriteEntity resp

/-- Go `handleListPolicies`. -/
def handleListPolicies (opErr : Option GoError) (resp : Response) : Response :=
  match opErr with
  | some err => HandleInternalError resp err
  | none => WriteEntity resp

/-- Go `handleListRules`. -/
def handleListRules (opErr : Option GoError) (resp : Response) : Response :=
  match opErr with
  | some err =>
    let resp := if err = GoError.ErrPolicyNotFound then HandleNotFound resp err else resp
    HandleInternalError resp err
  | none => WriteEntity resp

/-- Go `handleGetPolicyTemplate`. -/
def handleGetPolicyTemplate (opErr : Option GoError) (resp : Response) : Response :=
  match opErr with
  | some err =>
    let resp :=
      if err = GoError.ErrPolicyTemplateNotFound then HandleNotFound resp err else resp
    HandleInternalError resp err
  | none => WriteEntity resp

/-- Go `handleGetPolicy`: on an operator error, `HandleNotFound` when the error
is `ErrPolicyNotFound`, then (no `return` or `else` in between)
`HandleInternalError`, then `return`; else write the policy. -/
def handleGetPolicy (opErr : Option GoError) (resp : Response) : Response :=
  match opErr with
  | some err =>
    let resp := if err = GoError.ErrPolicyNotFound then HandleNotFound resp err else resp
    HandleInternalError resp err
  | none => WriteEntity resp

/-- Go `handleGetRule`. -/
def handleGetRule (opErr : Option GoError) (resp : Response) : Response :=
  match opErr with
  | some err =>
    let resp := if err = GoError.ErrPolicyNotFound then HandleNotFound resp err else resp
    let resp := if err = GoError.ErrRuleNotFound then HandleNotFound resp err else resp
    HandleInternalError resp err
  | none => WriteEntity resp

/-- Go `handleCreatePolicy`. -/
def handleCreatePolicy (readErr validateErr opErr : Option GoError) (resp : Response) :
    Response :=
  match readErr with
  | some err => HandleBadRequest resp err
  | none =>
    match validateErr with
    | some err => HandleBadRequest resp err
    | none =>
      match opErr with
      | some err =>
        let resp :=
          if err = GoError.ErrPolicyTemplateNotFound then HandleNotFound resp err else resp
        let resp :=
          if err = GoError.ErrTemplateOfProviderNotSupport then HandleBadRequest resp err
          else resp
        let resp :=
          if err = GoError.ErrPolicyAlreadyExists then HandleBadRequest resp err else resp
        HandleInternalError resp err
      | none => resp

/-- Go `handleCreateRule`. -/
def handleCreateRule (readErr validateErr opErr : Option GoError) (resp : Response) :
    Response :=
  match readErr with
  | some err => HandleBadRequest resp err
  | none =>
    match validateErr with
    | some err => HandleBadRequest resp err
    | none =>
      match opErr with
      | some err =>
        let resp :=
          if err = GoError.ErrPolicyNotFound then HandleNotFound resp err else resp
        let resp :=
          if err = GoError.ErrRuleAlreadyExists then HandleBadRequest resp err else resp
        HandleInternalError resp err
      | none => resp

/-- Go `handleUpdatePolicy`. -/
def handleUpdatePolicy (readErr validateErr opErr : Option GoError) (resp : Response) :
    Response :=
  match readErr with
  | some err => HandleBadRequest resp err
  | none =>
    match validateErr with
    | some err => HandleBadRequest resp err
    | none =>
      match opErr with
      | some err =>
        let resp :=
          if err = GoError.ErrPolicyNotFound then HandleNotFound resp err else resp
        let resp :=
          if err = GoError.ErrPolicyAlreadyExists then HandleBadRequest resp err else resp
        HandleInternalError resp err
      | none => resp

/-- Go `handleUpdateRule`. -/
def handleUpdateRule (readErr validateErr opErr : Option GoError) (resp : Response) :
    Response :=
  match readErr with
  | some err => HandleBadRequest resp err
  | none =>
    match validateErr with
    | some err => HandleBadRequest resp err
    | none =>
      match opErr with
      | some err =>
        let resp :=
          if err = GoError.ErrPolicyNotFound then HandleNotFound resp err else resp
        let resp :=
          if err = GoError.ErrRuleNotFound then HandleNotFound resp err else resp
        let resp :=
          if err = GoError.ErrRuleAlreadyExists then HandleBadRequest resp err else resp
        HandleInternalError resp err
      | none => resp

/-- Go `handleDeletePolicy`. -/
def handleDeletePolicy (opErr : Option GoError) (resp : Response) : Response :=
  match opErr with
  | some err =>
    let resp := if err = GoError.ErrPolicyNotFound then HandleNotFound resp err else resp
    HandleInternalError resp err
  | none => resp

/-- Go `handleDeleteRule`. -/
def handleDeleteRule (opErr : Option GoError) (resp : Response) : Response :=
  match opErr with
  | some err =>
    let resp := if err = GoError.ErrPolicyNotFound then HandleNotFound resp err else resp
    let resp := if err = GoError.ErrRuleNotFound then HandleNotFound resp err else resp
    HandleInternalError resp err
  | none => resp

end kapis

/-! ## Concrete inputs used below -/

namespace Example

/-- A template `baseline-no-privileged` with two targets for provider
`gatekeeper` around one for provider `kyverno`. -/
def template : admission.PolicyTemplate :=
  { ObjectMeta := { Name := GoString.lit "baseline-no-privileged" }
    Spec :=
      { Name := GoString.lit "Baseline-No-Privileged"
        Description := GoString.lit "no privileged containers"
        Content :=
          { Spec :=
              { Names := { Name := GoString.lit "NoPrivileged" }
                Parameters :=
                  { Validation := some
                      { OpenAPIV3Schema := some { document := GoString.lit "\x7b\x7d" }
                        LegacySchema := true } } }
            Targets :=
              [ { Target := GoString.lit "admission.k8s.gatekeeper.sh"
                  Expression := GoString.lit "violation[msg]"
                  Import := [GoString.lit "lib.a"]
                  Provider := GoString.lit "gatekeeper" },
                { Target := GoString.lit "kyverno.io"
                  Expression := GoString.lit "deny"
                  Import := []
                  Provider := GoString.lit "kyverno" },
                { Target := GoString.lit "audit.k8s.gatekeeper.sh"
                  Expression := GoString.lit "violation[details]"
                  Import := []
                  Provider := GoString.lit "gatekeeper" } ] } } }

/-- A create-policy request named `NP-1`. -/
def postPolicy : v1alpha1.PostPolicy :=
  { Name := GoString.lit "NP-1"
    PolicyTemplate := GoString.lit "baseline-no-privileged"
    Description := GoString.lit ""
    Provider := GoString.lit "gatekeeper"
    Targets := []
    Parameters := { Validation := { OpenAPIV3Schema := none, LegacySchema := false } } }

/-- A create-rule request named `R-ns-prod`. -/
def postRule : v1alpha1.PostRule :=
  { Name := GoString.lit "R-ns-prod"
    Policy := GoString.lit "np-1"
    Provider := GoString.lit "gatekeeper"
    Description := GoString.lit ""
    Parameters := GoString.lit "\x7b\x7d" }

/-- A stored policy named `np-1`. -/
def storedPolicy : admission.Policy :=
  policies.PolicyFromTemplate id template (GoString.lit "np-1") (GoString.lit "gatekeeper")
    GoString.empty

/-- A manager whose cache holds the policy `np-1`. -/
def manager : policies.PolicyManager := { ksInformers := [storedPolicy] }

end Example

/-! ## Vocabulary of the statements -/

/-- The record a matching template target contributes to a policy. -/
def policies.targetOf (t : admission.PolicyTemplateContentTarget) :
    admission.PolicyContentTarget :=
  { Target := t.Target, Expression := t.Expression, Import := t.Import }

/-- Two names differ at most in letter case: `strings.ToLower` sends both to the
same string. -/
def strings.SameUpToCase (mapLower : GoString → GoString) (a b : GoString) : Prop :=
  strings.ToLower mapLower a = strings.ToLower mapLower b

/-! ## Supporting lemmas -/

theorem policies.foldl_PolicyFromTemplateStep (provider : GoString)
    (targets : List admission.PolicyTemplateContentTarget)
    (acc : List admission.PolicyContentTarget) :
    targets.foldl (policies.PolicyFromTemplateStep provider) acc
      = acc ++ (targets.filter (fun t => decide (t.Provider = provider))).map
          policies.targetOf := by
  induction targets generalizing acc with
  | nil => simp
  | cons t ts ih =>
    rw [List.foldl_cons, ih]
    by_cases hp : t.Provider = provider
    · simp [policies.PolicyFromTemplateStep, policies.targetOf, hp]
    · simp [policies.PolicyFromTemplateStep, hp]

theorem policies.PolicyFromTemplate_Targets (mapLower : GoString → GoString)
    (T : admission.PolicyTemplate) (name provider : GoString)
    (state : admission.PolicyState) :
    (policies.PolicyFromTemplate mapLower T name provider state).Spec.Content.Targets
      = (T.Spec.Content.Targets.filter (fun t => decide (t.Provider = provider))).map
          policies.targetOf := by
  simp [policies.PolicyFromTemplate, policies.foldl_PolicyFromTemplateStep]

theorem strings.ToLower_of_ascii_variant (mapLower : GoString → GoString)
    (a b : GoString) (ha : strings.isASCII a = true) (hb : strings.isASCII b = true)
    (h : a.bytes.map strings.lowerByte = b.bytes.map strings.lowerByte) :
    strings.ToLower mapLower a = strings.ToLower mapLower b := by
  simp [strings.ToLower, ha, hb, h]

/-- The number of error responses `handleGetPolicy` writes for an operator
error: two for `ErrPolicyNotFound`, one for any other error. -/
theorem kapis.handleGetPolicy_errorCount (err : GoError) :
    ksapi.errorCount (kapis.handleGetPolicy (some err) [])
      = if err = GoError.ErrPolicyNotFound then 2 else 1 := by
  by_cases h : err = GoError.ErrPolicyNotFound
  · subst h
    decide
  · simp [kapis.handleGetPolicy, h, ksapi.HandleInternalError, ksapi.errorCount]

/-- The number of error responses `handleDeletePolicy` writes for an operator
error: two for `ErrPolicyNotFound`, one for any other error. -/
theorem kapis.handleDeletePolicy_errorCount (err : GoError) :
    ksapi.errorCount (kapis.handleDeletePolicy (some err) [])
      = if err = GoError.ErrPolicyNotFound then 2 else 1 := by
  by_cases h : err = GoError.ErrPolicyNotFound
  · subst h
    decide
  · simp [kapis.handleDeletePolicy, h, ksapi.HandleInternalError, ksapi.errorCount]

/-- A successful `handleGetPolicy` writes the entity and no error response. -/
theorem kapis.handleGetPolicy_success :
    kapis.handleGetPolicy none [] = [ksapi.Written.entity] := by
  decide

/-! ## Properties -/

/-- C1: for a provider `p` that is the provider of at least one content target
of the template, the target list of the policy built by `PolicyFromTemplate` is
exactly the template's targets of provider `p`, in the template's order, each
with its `Target`, `Expression` and `Import` (and it is not empty). -/
theorem PolicyFromTemplate_targets_are_the_matching_ones
    (mapLower : GoString → GoString) (T : admission.PolicyTemplate)
    (name p : GoString) (state : admission.PolicyState)
    (h : ∃ t ∈ T.Spec.Content.Targets, t.Provider = p) :
    (policies.PolicyFromTemplate mapLower T name p state).Spec.Content.Targets
        = (T.Spec.Content.Targets.filter (fun t => decide (t.Provider = p))).map
            (fun t => { Target := t.Target, Expression := t.Expression, Import := t.Import })
      ∧ (policies.PolicyFromTemplate mapLower T name p state).Spec.Content.Targets ≠ [] := by
  have key := policies.PolicyFromTemplate_Targets mapLower T name p state
  refine ⟨key, ?_⟩
  rw [key]
  obtain ⟨t, ht, hp⟩ := h
  have hmem : t ∈ T.Spec.Content.Targets.filter (fun t => decide (t.Provider = p)) := by
    simp [List.mem_filter, ht, hp]
  intro hnil
  rw [List.map_eq_nil_iff] at hnil
  rw [hnil] at hmem
  exact List.not_mem_nil _ hmem

theorem PolicyFromTemplate_targets_are_the_matching_ones_witness :
    (∃ t ∈ Example.template.Spec.Content.Targets, t.Provider = GoString.lit "gatekeeper")
      ∧ (policies.PolicyFromTemplate id Example.template (GoString.lit "np-1")
            (GoString.lit "gatekeeper") GoString.empty).Spec.Content.Targets
          = [ { Target := GoString.lit "admission.k8s.gatekeeper.sh"
                Expression := GoString.lit "violation[msg]"
                Import := [GoString.lit "lib.a"] },
              { Target := GoString.lit "audit.k8s.gatekeeper.sh"
                Expression := GoString.lit "violation[details]"
                Import := [] } ] :=
  ⟨by decide,
   (PolicyFromTemplate_targets_are_the_matching_ones id Example.template
      (GoString.lit "np-1") (GoString.lit "gatekeeper") GoString.empty (by decide)).1.trans
      (by decide)⟩

/-- C2, as stated, fails: for the provider `opa`, which is the provider of no
target of the example template, the call of `PolicyFromTemplate` does not fail
with the provider-mismatch error; it returns a policy. -/
theorem PolicyFromTemplate_mismatch_is_not_rejected :
    (∀ t ∈ Example.template.Spec.Content.Targets, t.Provider ≠ GoString.lit "opa")
      ∧ policies.PolicyFromTemplateCall id Example.template (GoString.lit "np-1")
            (GoString.lit "opa") GoString.empty
          ≠ Outcome.error GoError.ErrTemplateOfProviderNotSupport
      ∧ policies.PolicyFromTemplateCall id Example.template (GoString.lit "np-1")
            (GoString.lit "opa") GoString.empty
          = Outcome.ok
              { TypeMeta := { Kind := GoString.empty, APIVersion := GoString.empty }
                ObjectMeta := { Name := GoString.lit "np-1" }
                Spec :=
                  { Name := GoString.lit "np-1"
                    PolicyTemplate := GoString.lit "Baseline-No-Privileged"
                    Description := GoString.lit "no privileged containers"
                    Provider := GoString.lit "opa"
                    Content :=
                      { Spec :=
                          { Names := { Name := GoString.lit "NoPrivileged" }
                            Parameters :=
                              { Validation := some
                                  { OpenAPIV3Schema :=
                                      some { document := GoString.lit "\x7b\x7d" }
                                    LegacySchema := true } } }
                        Targets := [] } }
                Status := { State := GoString.lit "Inactive" } } := by
  refine ⟨by decide, by decide, by decide⟩

/-- C2, amended: for a provider `p` that is the provider of no content target
of the template, the call of `PolicyFromTemplate` does not fail: it returns a
policy, and neither an error (of any kind) nor an abort. -/
theorem PolicyFromTemplate_mismatch_returns_policy
    (mapLower : GoString → GoString) (T : admission.PolicyTemplate)
    (name p : GoString) (state : admission.PolicyState)
    (_h : ∀ t ∈ T.Spec.Content.Targets, t.Provider ≠ p) :
    (∃ policy, policies.PolicyFromTemplateCall mapLower T name p state = Outcome.ok policy)
      ∧ (∀ e, policies.PolicyFromTemplateCall mapLower T name p state ≠ Outcome.error e)
      ∧ (∀ msg, policies.PolicyFromTemplateCall mapLower T name p state
            ≠ Outcome.abort msg) := by
  refine ⟨⟨_, rfl⟩, ?_, ?_⟩
  · intro e he
    simp [policies.PolicyFromTemplateCall] at he
  · intro msg he
    simp [policies.PolicyFromTemplateCall] at he

theorem PolicyFromTemplate_mismatch_returns_policy_witness :
    (∀ t ∈ Example.template.Spec.Content.Targets, t.Provider ≠ GoString.lit "opa")
      ∧ ((∃ policy, policies.PolicyFromTemplateCall id Example.template GoString.empty
              (GoString.lit "opa") GoString.empty = Outcome.ok policy)
        ∧ (∀ e, policies.PolicyFromTemplateCall id Example.template GoString.empty
              (GoString.lit "opa") GoString.empty ≠ Outcome.error e)
        ∧ (∀ msg, policies.PolicyFromTemplateCall id Example.template GoString.empty
              (GoString.lit "opa") GoString.empty ≠ Outcome.abort msg)) :=
  ⟨by decide,
   PolicyFromTemplate_mismatch_returns_policy id Example.template GoString.empty
     (GoString.lit "opa") GoString.empty (by decide)⟩

/-- C3, evaluated where the code departs from it: the cache holds a policy named
`np-1`, the lister finds it, and `GetPolicy` aborts in `PolicyDetail` instead of
returning a `PolicyDetail`. -/
theorem GetPolicy_of_present_name_aborts :
    policies.ListerGet Example.manager.ksInformers (GoString.lit "np-1")
        = Outcome.ok Example.storedPolicy
      ∧ policies.GetPolicy Example.manager (GoString.lit "np-1")
        = Outcome.abort "implement me" := by
  refine ⟨by decide, by decide⟩

/-- The not-found half of `GetPolicy`: when the cache holds no policy of the
name, `GetPolicy` returns the lister's not-found error. -/
theorem policies.GetPolicy_absent (p : policies.PolicyManager) (policyName : GoString)
    (h : ∀ policy ∈ p.ksInformers, policy.ObjectMeta.Name ≠ policyName) :
    policies.GetPolicy p policyName
      = Outcome.error (GoError.apiNotFound (GoString.lit "policy") policyName) := by
  have hfind : p.ksInformers.find? (fun policy => decide (policy.ObjectMeta.Name = policyName))
      = none := by
    rw [List.find?_eq_none]
    intro policy hmem
    simpa using h policy hmem
  simp [policies.GetPolicy, policies.ListerGet, hfind]

/-- The present half of `GetPolicy`, in general: whenever the lister finds a
policy, `GetPolicy` aborts. -/
theorem policies.GetPolicy_present (p : policies.PolicyManager) (policyName : GoString)
    (policy : admission.Policy)
    (h : policies.ListerGet p.ksInformers policyName = Outcome.ok policy) :
    policies.GetPolicy p policyName = Outcome.abort "implement me" := by
  simp [policies.GetPolicy, h, policies.PolicyDetail]

/-- C4: for a non-empty requested name `n`, `PolicyFromTemplate` stores
`lowercase(n)` as storage name and `n` itself as display name; `Policy` stores
`lowercase(postPolicy.Name)` and `postPolicy.Name`. Hence a second non-empty
name that differs from `n` only in letter case gives the same storage name (in
particular an ASCII name whose bytes, each lowered, are those of `n` lowered),
and likewise for two requests passed to `Policy`. -/
theorem storage_name_is_lowercase_display_name_verbatim
    (mapLower : GoString → GoString) (T : admission.PolicyTemplate)
    (n p : GoString) (state : admission.PolicyState)
    (postPolicy : v1alpha1.PostPolicy) (h : n ≠ GoString.empty) :
    (policies.PolicyFromTemplate mapLower T n p state).ObjectMeta.Name
        = strings.ToLower mapLower n
      ∧ (policies.PolicyFromTemplate mapLower T n p state).Spec.Name = n
      ∧ (policies.Policy mapLower postPolicy state).ObjectMeta.Name
        = strings.ToLower mapLower postPolicy.Name
      ∧ (policies.Policy mapLower postPolicy state).Spec.Name = postPolicy.Name
      ∧ (∀ n', n' ≠ GoString.empty → strings.SameUpToCase mapLower n n' →
          (policies.PolicyFromTemplate mapLower T n' p state).ObjectMeta.Name
            = (policies.PolicyFromTemplate mapLower T n p state).ObjectMeta.Name)
      ∧ (∀ n', n' ≠ GoString.empty → strings.isASCII n = true →
          strings.isASCII n' = true →
          n'.bytes.map strings.lowerByte = n.bytes.map strings.lowerByte →
          (policies.PolicyFromTemplate mapLower T n' p state).ObjectMeta.Name
            = (policies.PolicyFromTemplate mapLower T n p state).ObjectMeta.Name)
      ∧ (∀ postPolicy' : v1alpha1.PostPolicy,
          strings.SameUpToCase mapLower postPolicy.Name postPolicy'.Name →
          (policies.Policy mapLower postPolicy' state).ObjectMeta.Name
            = (policies.Policy mapLower postPolicy state).ObjectMeta.Name) := by
  have hname : ∀ m : GoString, m ≠ GoString.empty →
      (policies.PolicyFromTemplate mapLower T m p state).ObjectMeta.Name
        = strings.ToLower mapLower m := by
    intro m hm
    simp [policies.PolicyFromTemplate, hm]
  refine ⟨hname n h, ?_, rfl, rfl, ?_, ?_, ?_⟩
  · simp [policies.PolicyFromTemplate, h]
  · intro n' hn' hsame
    rw [hname n h, hname n' hn']
    exact hsame.symm
  · intro n' hn' ha ha' hbytes
    rw [hname n h, hname n' hn']
    exact strings.ToLower_of_ascii_variant mapLower n' n ha' ha hbytes
  · intro postPolicy' hsame
    exact hsame.symm

theorem storage_name_is_lowercase_display_name_verbatim_witness :
    GoString.lit "NP-1" ≠ GoString.empty
      ∧ (policies.PolicyFromTemplate id Example.template (GoString.lit "NP-1")
            (GoString.lit "gatekeeper") GoString.empty).ObjectMeta.Name = GoString.lit "np-1"
      ∧ (policies.PolicyFromTemplate id Example.template (GoString.lit "NP-1")
            (GoString.lit "gatekeeper") GoString.empty).Spec.Name = GoString.lit "NP-1"
      ∧ (policies.PolicyFromTemplate id Example.template (GoString.lit "Np-1")
            (GoString.lit "gatekeeper") GoString.empty).ObjectMeta.Name
          = (policies.PolicyFromTemplate id Example.template (GoString.lit "NP-1")
              (GoString.lit "gatekeeper") GoString.empty).ObjectMeta.Name :=
  have hthm := storage_name_is_lowercase_display_name_verbatim id Example.template
    (GoString.lit "NP-1") (GoString.lit "gatekeeper") GoString.empty Example.postPolicy
    (by decide)
  ⟨by decide, hthm.1.trans (by decide), hthm.2.1,
   hthm.2.2.2.2.2.1 (GoString.lit "Np-1") (by decide) (by decide) (by decide) (by decide)⟩

/-- C5: with an empty requested name `PolicyFromTemplate` builds the policy it
builds for the template's own name: the storage name is the lowercase of the
template's name, the display name is the template's name, and the recorded
originating template name is the same in both cases. -/
theorem PolicyFromTemplate_empty_name_defaults_to_template_name
    (mapLower : GoString → GoString) (T : admission.PolicyTemplate)
    (p : GoString) (state : admission.PolicyState) :
    policies.PolicyFromTemplate mapLower T GoString.empty p state
        = policies.PolicyFromTemplate mapLower T T.ObjectMeta.Name p state
      ∧ (policies.PolicyFromTemplate mapLower T GoString.empty p state).ObjectMeta.Name
        = strings.ToLower mapLower T.ObjectMeta.Name
      ∧ (policies.PolicyFromTemplate mapLower T GoString.empty p state).Spec.Name
        = T.ObjectMeta.Name
      ∧ (policies.PolicyFromTemplate mapLower T GoString.empty p state).Spec.PolicyTemplate
        = T.Spec.Name
      ∧ (policies.PolicyFromTemplate mapLower T T.ObjectMeta.Name p state).Spec.PolicyTemplate
        = T.Spec.Name := by
  refine ⟨?_, ?_, ?_, rfl, rfl⟩
  · by_cases hT : T.ObjectMeta.Name = GoString.empty
    · simp [policies.PolicyFromTemplate, hT]
    · simp [policies.PolicyFromTemplate, hT]
  · simp [policies.PolicyFromTemplate]
  · simp [policies.PolicyFromTemplate]

/-- C6, as stated, fails: the state `Paused` is not `Active`, yet none of the
three translators answers with the state `Inactive` when it is passed. -/
theorem state_other_than_active_is_not_made_inactive :
    GoString.lit "Paused" ≠ admission.PolicyActive
      ∧ GoString.lit "Paused" ≠ admission.RuleActive
      ∧ (policies.Policy id Example.postPolicy (GoString.lit "Paused")).Status.State
          ≠ admission.PolicyInactive
      ∧ (policies.PolicyFromTemplate id Example.template (GoString.lit "np-1")
            (GoString.lit "gatekeeper") (GoString.lit "Paused")).Status.State
          ≠ admission.PolicyInactive
      ∧ (rules.Rule id Example.postRule (GoString.lit "Paused")
            [GoString.lit "prod"]).Status.State
          ≠ admission.RuleInactive
      ∧ (policies.Policy id Example.postPolicy (GoString.lit "Paused")).Status.State
          = GoString.lit "Paused" := by
  refine ⟨by decide, by decide, by decide, by decide, by decide, by decide⟩

/-- C6, amended: the lifecycle state of the resource built by each translator
is `Inactive` if the caller passed the empty state and is otherwise the state
the caller passed, unchanged; in particular passing `Active` yields `Active`
and passing no state yields `Inactive`. -/
theorem state_defaults_to_inactive_else_is_kept
    (mapLower : GoString → GoString) (postPolicy : v1alpha1.PostPolicy)
    (T : admission.PolicyTemplate) (name p : GoString)
    (postRule : v1alpha1.PostRule) (namespaces : List GoString) (state : GoString) :
    (policies.Policy mapLower postPolicy state).Status.State
        = (if state = GoString.empty then admission.PolicyInactive else state)
      ∧ (policies.PolicyFromTemplate mapLower T name p state).Status.State
        = (if state = GoString.empty then admission.PolicyInactive else state)
      ∧ (rules.Rule mapLower postRule state namespaces).Status.State
        = (if state = GoString.empty then admission.RuleInactive else state)
      ∧ (policies.Policy mapLower postPolicy admission.PolicyActive).Status.State
        = admission.PolicyActive
      ∧ (policies.PolicyFromTemplate mapLower T name p admission.PolicyActive).Status.State
        = admission.PolicyActive
      ∧ (rules.Rule mapLower postRule admission.RuleActive namespaces).Status.State
        = admission.RuleActive
      ∧ (policies.Policy mapLower postPolicy GoString.empty).Status.State
        = admission.PolicyInactive
      ∧ (policies.PolicyFromTemplate mapLower T name p GoString.empty).Status.State
        = admission.PolicyInactive
      ∧ (rules.Rule mapLower postRule GoString.empty namespaces).Status.State
        = admission.RuleInactive := by
  have hP : admission.PolicyActive ≠ GoString.empty := by decide
  have hR : admission.RuleActive ≠ GoString.empty := by decide
  refine ⟨rfl, rfl, rfl, ?_, ?_, ?_, ?_, ?_, ?_⟩
  · simp [policies.Policy, hP]
  · simp [policies.PolicyFromTemplate, hP]
  · simp [rules.Rule, hR]
  · simp [policies.Policy]
  · simp [policies.PolicyFromTemplate]
  · simp [rules.Rule]

/-- C7: the rule built by `Rule` has the request's display name, provider and
description (and parent policy), the lowercase of the request's name as storage
name, exactly the given namespaces as `match.namespaces` (none when none is
given), and the bytes of the request's parameters as raw payload, which
converted back to a string are the request's parameters. -/
theorem Rule_copies_request_and_namespaces
    (mapLower : GoString → GoString) (r : v1alpha1.PostRule)
    (state : admission.RuleState) (ns : List GoString) :
    (rules.Rule mapLower r state ns).Spec.Name = r.Name
      ∧ (rules.Rule mapLower r state ns).Spec.Provider = r.Provider
      ∧ (rules.Rule mapLower r state ns).Spec.Description = r.Description
      ∧ (rules.Rule mapLower r state ns).Spec.Policy = r.Policy
      ∧ (rules.Rule mapLower r state ns).ObjectMeta.Name = strings.ToLower mapLower r.Name
      ∧ (rules.Rule mapLower r state ns).Spec.Match.Namespaces = ns
      ∧ (rules.Rule mapLower r state []).Spec.Match.Namespaces = []
      ∧ (rules.Rule mapLower r state ns).Spec.Parameters.Raw = r.Parameters.bytes
      ∧ GoString.ofBytes (rules.Rule mapLower r state ns).Spec.Parameters.Raw
        = r.Parameters :=
  ⟨rfl, rfl, rfl, rfl, rfl, rfl, rfl, rfl, rfl⟩

/-- C8: the policy built by `PolicyFromTemplate` carries the template's names
block and parameter block (validation schema with its legacy variant)
unchanged, whatever the requested name, provider and state. -/
theorem PolicyFromTemplate_copies_names_and_parameters
    (mapLower : GoString → GoString) (T : admission.PolicyTemplate)
    (name p : GoString) (state : admission.PolicyState) :
    (policies.PolicyFromTemplate mapLower T name p state).Spec.Content.Spec.Names
        = T.Spec.Content.Spec.Names
      ∧ (policies.PolicyFromTemplate mapLower T name p state).Spec.Content.Spec.Parameters
        = T.Spec.Content.Spec.Parameters :=
  ⟨rfl, rfl⟩

/-- C9: when no content target of the template has provider `p` (also when the
template has no target at all), `PolicyFromTemplate` still produces a policy,
whose target list is empty and whose provider is `p`. -/
theorem PolicyFromTemplate_without_matching_target
    (mapLower : GoString → GoString) (T : admission.PolicyTemplate)
    (name p : GoString) (state : admission.PolicyState)
    (h : ∀ t ∈ T.Spec.Content.Targets, t.Provider ≠ p) :
    ∃ policy, policies.PolicyFromTemplateCall mapLower T name p state = Outcome.ok policy
      ∧ policy = policies.PolicyFromTemplate mapLower T name p state
      ∧ policy.Spec.Content.Targets = []
      ∧ policy.Spec.Provider = p := by
  refine ⟨_, rfl, rfl, ?_, rfl⟩
  rw [policies.PolicyFromTemplate_Targets, List.map_eq_nil_iff, List.filter_eq_nil_iff]
  intro t ht
  simpa using h t ht

theorem PolicyFromTemplate_without_matching_target_witness :
    (∀ t ∈ Example.template.Spec.Content.Targets, t.Provider ≠ GoString.lit "kubewarden")
      ∧ ∃ policy,
          policies.PolicyFromTemplateCall id Example.template (GoString.lit "np-1")
              (GoString.lit "kubewarden") GoString.empty
            = Outcome.ok policy
          ∧ policy = policies.PolicyFromTemplate id Example.template (GoString.lit "np-1")
              (GoString.lit "kubewarden") GoString.empty
          ∧ policy.Spec.Content.Targets = []
          ∧ policy.Spec.Provider = GoString.lit "kubewarden" :=
  ⟨by decide,
   PolicyFromTemplate_without_matching_target id Example.template (GoString.lit "np-1")
     (GoString.lit "kubewarden") GoString.empty (by decide)⟩

/-- C10, evaluated where the code departs from it: for an operator error of a
recognised kind each of these handlers writes its mapped response and then the
internal-error response as well, two error responses in all. -/
theorem handlers_write_internal_error_after_mapped_response :
    kapis.handleGetPolicy (some GoError.ErrPolicyNotFound) []
        = [ksapi.Written.notFound GoError.ErrPolicyNotFound,
           ksapi.Written.internalError GoError.ErrPolicyNotFound]
      ∧ kapis.handleGetRule (some GoError.ErrRuleNotFound) []
        = [ksapi.Written.notFound GoError.ErrRuleNotFound,
           ksapi.Written.internalError GoError.ErrRuleNotFound]
      ∧ kapis.handleCreatePolicy none none (some GoError.ErrPolicyAlreadyExists) []
        = [ksapi.Written.badRequest GoError.ErrPolicyAlreadyExists,
           ksapi.Written.internalError GoError.ErrPolicyAlreadyExists]
      ∧ kapis.handleDeletePolicy (some GoError.ErrPolicyNotFound) []
        = [ksapi.Written.notFound GoError.ErrPolicyNotFound,
           ksapi.Written.internalError GoError.ErrPolicyNotFound]
      ∧ ksapi.errorCount (kapis.handleGetPolicy (some GoError.ErrPolicyNotFound) []) = 2 := by
  refine ⟨by decide, by decide, by decide, by decide, by decide⟩
